import Mathlib

/-!
Verification of the DeepJ model architecture (`model.py`).

The model is a Keras computation graph over float tensors.  We embed it
shallowly: a tensor of shape (B, T, N, C) becomes a function
`Fin B → Fin T → Fin N → Fin C → R`, Keras layers become Lean functions on
such tensors, and the stochastic dropout layers take their Bernoulli keep
mask as an explicit argument.  `tf.reshape` / `tf.tile` are embedded by
their row-major flat-index semantics, which is essential: `pitch_bins_f`
reshapes a tensor laid out as (N, B, T) directly to (B, T, N, 1) without a
transpose, and the embedding must reproduce exactly that index arithmetic.

Float arithmetic is modelled exactly: the pure, rounding-independent
feature constructors are stated over an arbitrary field `R` (instantiated
at `ℚ` in concrete witnesses, and at `ℝ` inside the network), while the
network itself — which uses `exp` and `tanh` — lives over `ℝ`.

The external collaborators `constants.py` and `util.py` are not part of the
source; the constants (NUM_NOTES, OCTAVE, NUM_OCTAVES, ...) are therefore
parameters of every definition, and `one_hot` is modelled from the spec.
-/

namespace DeepJ

/-- Tensor of shape (B, T, N, C): batch, time, note, channel. -/
abbrev Tensor4 (R : Type) (B T N C : ℕ) : Type := Fin B → Fin T → Fin N → Fin C → R

/-- Tensor of shape (B, T, C): batch, time, channel. -/
abbrev Tensor3 (R : Type) (B T C : ℕ) : Type := Fin B → Fin T → Fin C → R

section PureFeatures

variable (R : Type) [Field R]

/-- Modelled from the spec: `one_hot i n` from the missing `util.py` — the
length-`n` vector with a 1 at index `i` and 0 elsewhere ("emits a one-hot
vector of length OCTAVE over i mod OCTAVE"). -/
def one_hot (i n : ℕ) : Fin n → R := fun k => if k.val = i then 1 else 0

/-! ### pitch_pos_in_f

`note_ranges = tf.range(NUM_NOTES) / NUM_NOTES` is tiled `B * T` times into
a flat vector of length `B * T * NUM_NOTES` (`flat f = note_ranges (f % N)`)
and then reshaped row-major to (B, T, N, 1), so position (b, t, n, 0) reads
flat index `(b * T + t) * N + n`. -/

/-- Shallow embedding of `pitch_pos_in_f time_steps` applied to any input of
batch size B: the (B, T, N, 1) tensor produced by tile-then-reshape. -/
def pitch_pos_in_f (B T N : ℕ) : Tensor4 R B T N 1 :=
  fun b t n _ =>
    ((((b.val * T + t.val) * N + n.val) % N : ℕ) : R) / (N : R)

/-! ### pitch_class_in_f

`pitch_class_matrix` has rows `one_hot (n % OCTAVE) OCTAVE` for
`n < NUM_NOTES`; it is reshaped to (1, 1, N, OCTAVE) (row-major, identity on
the data) and tiled over batch and time, so position (b, t, n, k) reads
`pitch_class_matrix n k` independently of b and t. -/

/-- Row `n` of the pitch-class matrix built in `pitch_class_in_f`. -/
def pitch_class_matrix (OCTAVE : ℕ) (n : ℕ) : Fin OCTAVE → R :=
  one_hot R (n % OCTAVE) OCTAVE

/-- Shallow embedding of `pitch_class_in_f time_steps` applied to any input
of batch size B. -/
def pitch_class_in_f (B T N OCTAVE : ℕ) : Tensor4 R B T N OCTAVE :=
  fun _ _ n k => pitch_class_matrix R OCTAVE n.val k

end PureFeatures

/-! ### pitch_bins_f

The code builds, for a (B, T, N, 2) input `x` with `N = NUM_OCTAVES * OCTAVE`:
  1. `tf.reduce_sum([x[:, :, i::OCTAVE, 0] for i in range(OCTAVE)], axis=3)`:
     the list of strided slices is stacked along a new leading axis, giving
     shape (OCTAVE, B, T, NUM_OCTAVES); element `o` of slice `i` is note
     `i + o * OCTAVE`; reducing axis 3 sums over the octaves, giving shape
     (OCTAVE, B, T).
  2. `tf.tile(bins, [NUM_OCTAVES, 1, 1])`: repeats along axis 0, giving
     shape (N, B, T) with entry `k` equal to entry `k % OCTAVE` of step 1.
  3. `tf.reshape(bins, [B, T, N, 1])`: a raw row-major reinterpretation of
     the (N, B, T) buffer — there is no transpose, so position (b, t, n, 0)
     reads flat index `f = (b * T + t) * N + n`, which in the (N, B, T)
     layout is position `(f / (B * T), (f % (B * T)) / T, f % T)`. -/

lemma slice_index_lt {OCT NO : ℕ} (i : Fin OCT) (o : Fin NO) :
    i.val + o.val * OCT < NO * OCT := by
  calc i.val + o.val * OCT < OCT + o.val * OCT := by omega
  _ = (o.val + 1) * OCT := by ring
  _ ≤ NO * OCT := Nat.mul_le_mul_right OCT o.isLt

lemma factor_pos_right {NO OCT : ℕ} (h : 0 < NO * OCT) : 0 < OCT := by
  rcases Nat.eq_zero_or_pos OCT with h0 | h1
  · rw [h0, Nat.mul_zero] at h
    exact absurd h (lt_irrefl 0)
  · exact h1

lemma flat_index_lt {B T N : ℕ} (b : Fin B) (t : Fin T) (n : Fin N) :
    (b.val * T + t.val) * N + n.val < B * T * N := by
  have h1 : b.val * T + t.val < B * T := by
    calc b.val * T + t.val < b.val * T + T := by omega
    _ = (b.val + 1) * T := by ring
    _ ≤ B * T := Nat.mul_le_mul_right T b.isLt
  calc (b.val * T + t.val) * N + n.val < (b.val * T + t.val) * N + N := by omega
  _ = ((b.val * T + t.val) + 1) * N := by ring
  _ ≤ B * T * N := Nat.mul_le_mul_right N h1

section PitchBins

variable (R : Type) [Field R]

/-- Step 1 of `pitch_bins_f`: the stacked strided slices reduced over the
octave axis; entry (i, b, t) is the total "is played" mass of pitch class
`i` at batch b, time t. -/
def pitch_bins_stacked (B T OCT NO : ℕ) (x : Tensor4 R B T (NO * OCT) 2) :
    Fin OCT → Fin B → Fin T → R :=
  fun i b t => ∑ o : Fin NO, x b t ⟨i.val + o.val * OCT, slice_index_lt i o⟩ 0

/-- Step 2 of `pitch_bins_f`: `tf.tile` along the leading axis, giving the
(N, B, T) tensor with entry (k, b, t) equal to the class-(k % OCTAVE) bin. -/
def pitch_bins_tiled (B T OCT NO : ℕ) (x : Tensor4 R B T (NO * OCT) 2) :
    Fin (NO * OCT) → Fin B → Fin T → R :=
  fun k b t =>
    pitch_bins_stacked R B T OCT NO x
      ⟨k.val % OCT, Nat.mod_lt _ (factor_pos_right k.pos)⟩ b t

/-- Step 3 of `pitch_bins_f`: raw row-major `tf.reshape` of an (N, B, T)
buffer into shape (B, T, N, 1) — no transpose is performed by the code, so
this is flat-index reinterpretation. -/
def reshape_NBT_to_BTN1 (B T N : ℕ) (v : Fin N → Fin B → Fin T → R) :
    Tensor4 R B T N 1 :=
  fun b t n _ =>
    let f := (b.val * T + t.val) * N + n.val
    v ⟨f / (B * T),
        (Nat.div_lt_iff_lt_mul (Nat.mul_pos b.pos t.pos)).2
          ((flat_index_lt b t n).trans_eq (by ring))⟩
      ⟨f % (B * T) / T,
        (Nat.div_lt_iff_lt_mul t.pos).2 (Nat.mod_lt _ (Nat.mul_pos b.pos t.pos))⟩
      ⟨f % T, Nat.mod_lt _ t.pos⟩

/-- Shallow embedding of `pitch_bins_f time_steps` applied to an input of
batch size B: stack-and-reduce, tile, then raw reshape. -/
def pitch_bins_f (B T OCT NO : ℕ) (x : Tensor4 R B T (NO * OCT) 2) :
    Tensor4 R B T (NO * OCT) 1 :=
  reshape_NBT_to_BTN1 R B T (NO * OCT) (pitch_bins_tiled R B T OCT NO x)

/-- Statement of the SPEC's description of the pitch-bins feature (claim
C1): the value at (b, t, n) is the sum of the "is played" channel over all
notes sharing the pitch class of `n`. -/
def pitch_bins_claimed (B T OCT NO : ℕ) (x : Tensor4 R B T (NO * OCT) 2) :
    Tensor4 R B T (NO * OCT) 1 :=
  fun b t n _ => ∑ j : Fin (NO * OCT), if j.val % OCT = n.val % OCT then x b t j 0 else 0

end PitchBins

/-! ### Dropout, the pitch shift, and channel concatenation -/

section LayerPrimitives

variable (R : Type) [Field R] [DecidableEq R]

/-- Keras `Dropout(rate)` on a rank-4 tensor, with its Bernoulli keep-mask
as an explicit argument.  A kept unit is scaled by `1 / (1 - rate)`
(inverted dropout); with rate 0 every unit is kept with probability 1 and
the scale is 1, so the layer is the identity regardless of the mask. -/
def dropout4 (B T N C : ℕ) (rate : R)
    (mask : Fin B → Fin T → Fin N → Fin C → Bool) (x : Tensor4 R B T N C) :
    Tensor4 R B T N C :=
  fun b t n c =>
    if rate = 0 then x b t n c
    else if mask b t n c then x b t n c / (1 - rate) else 0

/-- Keras `Dropout(rate)` on a rank-3 tensor. -/
def dropout3 (B T C : ℕ) (rate : R)
    (mask : Fin B → Fin T → Fin C → Bool) (x : Tensor3 R B T C) :
    Tensor3 R B T C :=
  fun b t c =>
    if rate = 0 then x b t c
    else if mask b t c then x b t c / (1 - rate) else 0

/-- Shallow embedding of the shift Lambda
`tf.pad(x[:, :, :-1, :], [[0, 0], [0, 0], [1, 0], [0, 0]])`: the last note
is dropped and a zero is padded in at note index 0, so note 0 reads 0 and
note n > 0 reads the input's note n - 1.  The subsequent
`Reshape((time_steps, NUM_NOTES, -1))` is the identity (the inferred last
dimension is 2 again). -/
def shift_chosen (B T N C : ℕ) (x : Tensor4 R B T N C) : Tensor4 R B T N C :=
  fun b t n c =>
    if n.val = 0 then 0
    else x b t ⟨n.val - 1, by omega⟩ c

/-- Keras `Concatenate(axis=3)` (equally the default axis -1) of two rank-4
tensors along the channel axis. -/
def concat4 (B T N C1 C2 : ℕ)
    (x : Tensor4 R B T N C1) (y : Tensor4 R B T N C2) :
    Tensor4 R B T N (C1 + C2) :=
  fun b t n k =>
    if h : k.val < C1 then x b t n ⟨k.val, h⟩
    else y b t n ⟨k.val - C1, by have hk := k.isLt; omega⟩

end LayerPrimitives

/-! ### Losses and the compiled configuration (lines 13-17 and 134-135) -/

/-- Keras `losses.binary_crossentropy`: the element-wise binary
cross-entropy `-(y log p + (1 - y) log (1 - p))` averaged over the last
axis (the numeric epsilon-clipping of the backend is omitted in this
exact-real model). -/
noncomputable def binary_crossentropy (C : ℕ) (ytrue ypred : Fin C → ℝ) : ℝ :=
  (∑ c, -(ytrue c * Real.log (ypred c)
      + (1 - ytrue c) * Real.log (1 - ypred c))) / (C : ℝ)

/-- Keras `losses.categorical_crossentropy`: the prediction is normalized
to sum 1 over the last axis and `-Σ y log p` is returned. -/
noncomputable def categorical_crossentropy (C : ℕ) (ytrue ypred : Fin C → ℝ) : ℝ :=
  -(∑ c, ytrue c * Real.log (ypred c / ∑ j, ypred j))

/-- Line 13: `primary_loss(y_true, y_pred) = losses.binary_crossentropy(...)`. -/
noncomputable def primary_loss (C : ℕ) (ytrue ypred : Fin C → ℝ) : ℝ :=
  binary_crossentropy C ytrue ypred

/-- Line 16: `style_loss(y_true, y_pred) = 0.5 * losses.categorical_crossentropy(...)`. -/
noncomputable def style_loss (C : ℕ) (ytrue ypred : Fin C → ℝ) : ℝ :=
  (1 / 2) * categorical_crossentropy C ytrue ypred

/-- Names of the two loss functions defined in `model.py`. -/
inductive LossTag where
  | primary
  | style
  deriving DecidableEq

/-- Line 135: `model.compile(optimizer='nadam', loss=[primary_loss])` — the
list of losses attached to the model's outputs in the default (uncommented)
configuration.  The alternative two-output compile on lines 137-138 is
commented out. -/
def compiled_losses : List LossTag := [LossTag.primary]

/-! ### Positional input order of the constructed Model (line 134) -/

/-- The four inputs of `build_model`. -/
inductive ModelInput where
  | notes
  | chosen
  | beat
  | style
  deriving DecidableEq

/-- Line 134: `Model([notes_in, chosen_in, beat_in, style_in], [notes_out])`
— the positional order in which the constructed model consumes its input
tensors. -/
def model_input_order : List ModelInput :=
  [ModelInput.notes, ModelInput.chosen, ModelInput.beat, ModelInput.style]

/-- Stated from the spec for comparison: the order of the data-model table
in spec section 3 (notes, beat, style, chosen). -/
def data_model_table_order : List ModelInput :=
  [ModelInput.notes, ModelInput.beat, ModelInput.style, ModelInput.chosen]

/-! ### Engine shape checks for a non-divisible NUM_NOTES (claim C9)

Modelled from the spec: the underlying tensor engine (an external
collaborator) raises a shape mismatch when
`[x[:, :, i::OCTAVE, 0] for i in range(OCTAVE)]` is a ragged list (the
strided slices have unequal lengths, which happens exactly when OCTAVE does
not divide NUM_NOTES) or when the element count of the final reshape does
not match; `model.py` itself contains no validation of the configuration.
We model the fallible construction as an `Except` value and error
propagation as `Except.bind`. -/

section CheckedBins

variable (R : Type) [Field R]

/-- Length of the strided slice `x[:, :, i::OCTAVE, 0]` along the note
axis: the number of indices `i, i + OCTAVE, ...` below N, i.e.
ceil((N - i) / OCTAVE). -/
def slice_len (N OCT i : ℕ) : ℕ := (N - i + OCT - 1) / OCT

/-- Total (guard-indexed) variant of the pitch-bins value used for the ok
branch of the checked construction; out-of-range reads give 0. -/
def pitch_bins_total (B T N OCT NO : ℕ) (x : Tensor4 R B T N 2) :
    Tensor4 R B T N 1 :=
  fun b t n _ =>
    let f := (b.val * T + t.val) * N + n.val
    ∑ o ∈ Finset.range NO,
      (if h : (f % (B * T)) / T < B ∧ f % T < T ∧ (f / (B * T)) % OCT + o * OCT < N then
        x ⟨(f % (B * T)) / T, h.1⟩ ⟨f % T, h.2.1⟩ ⟨(f / (B * T)) % OCT + o * OCT, h.2.2⟩ 0
      else 0)

/-- The pitch-bins construction with the tensor engine's shape checks: the
stack of strided slices requires all OCTAVE slices to have equal length,
and the reshape to (B, T, N, 1) requires the element counts to agree;
otherwise the engine raises a shape mismatch. -/
def pitch_bins_checked (B T N OCT NO : ℕ) (x : Tensor4 R B T N 2) :
    Except String (Tensor4 R B T N 1) :=
  if (∀ i < OCT, slice_len N OCT i = slice_len N OCT 0) ∧ NO * OCT = N then
    Except.ok (pitch_bins_total R B T N OCT NO x)
  else
    Except.error "tensor engine shape mismatch"

/-- The feature-stage assembly downstream of the pitch-bins construction:
any engine error propagates to the caller unmodified through the bind. -/
def note_features_checked (B T N OCT NO W : ℕ) (x : Tensor4 R B T N 2)
    (assemble : Tensor4 R B T N 1 → Tensor4 R B T N W) :
    Except String (Tensor4 R B T N W) :=
  (pitch_bins_checked R B T N OCT NO x).bind fun bins => Except.ok (assemble bins)

end CheckedBins

/-! ### The full forward graph of build_model

All remaining layers are real-valued.  Learned parameters are explicit
arguments (a `Weights` bundle), dropout keep-masks are explicit arguments
(a `Masks` bundle), and the two dropout rates (`input_dropout`, `dropout`)
are the configuration scalars of `build_model`. -/

/-- Boolean keep-mask for a rank-4 dropout site. -/
abbrev Mask4 (B T N C : ℕ) : Type := Fin B → Fin T → Fin N → Fin C → Bool

/-- Boolean keep-mask for a rank-3 dropout site. -/
abbrev Mask3 (B T C : ℕ) : Type := Fin B → Fin T → Fin C → Bool

/-- Configuration constants consumed by `build_model` (modelled from the
spec: `constants.py` is an external collaborator; NUM_NOTES spans an
integer number of octaves, `N = NUM_OCTAVES * OCTAVE`), together with the
per-pass batch size B and window length T (`time_steps`). -/
structure Config where
  B : ℕ
  T : ℕ
  OCTAVE : ℕ
  NUM_OCTAVES : ℕ
  NUM_STYLES : ℕ
  STYLE_UNITS : ℕ
  BEAT_UNITS : ℕ
  OCTAVE_UNITS : ℕ
  TIME_AXIS_UNITS : ℕ
  TIME_AXIS_LAYERS : ℕ
  NOTE_AXIS_UNITS : ℕ
  NOTE_AXIS_LAYERS : ℕ

/-- NUM_NOTES. -/
def Config.N (cfg : Config) : ℕ := cfg.NUM_OCTAVES * cfg.OCTAVE

/-- Feature width entering time-axis layer l: the concatenated per-note
features (pitch position 1, pitch class OCTAVE, pitch bins 1, octave
convolution OCTAVE_UNITS, beat embedding BEAT_UNITS) for l = 0, and
TIME_AXIS_UNITS (the LSTM output width) afterwards. -/
def Config.timeWidth (cfg : Config) : ℕ → ℕ
  | 0 => 1 + cfg.OCTAVE + 1 + cfg.OCTAVE_UNITS + cfg.BEAT_UNITS
  | _ + 1 => cfg.TIME_AXIS_UNITS

/-- Feature width entering note-axis layer l: the time-axis output
concatenated with the 2 shifted chosen channels for l = 0, and
NOTE_AXIS_UNITS afterwards. -/
def Config.noteWidth (cfg : Config) : ℕ → ℕ
  | 0 => cfg.timeWidth cfg.TIME_AXIS_LAYERS + 2
  | _ + 1 => cfg.NOTE_AXIS_UNITS

noncomputable section Network

/-- Logistic sigmoid, the activation of the final Dense layer. -/
def sigmoid (z : ℝ) : ℝ := 1 / (1 + Real.exp (-z))

/-- Keras 2 `hard_sigmoid`, the default recurrent activation of LSTM:
`0.2 * x + 0.5` clipped to [0, 1]. -/
def hard_sigmoid (z : ℝ) : ℝ := max 0 (min 1 (z / 5 + 1 / 2))

/-- Affine map of a Dense layer on one feature vector. -/
def denseVec (F U : ℕ) (W : Fin F → Fin U → ℝ) (bias : Fin U → ℝ)
    (v : Fin F → ℝ) : Fin U → ℝ :=
  fun u => (∑ j, v j * W j u) + bias u

/-- Keras `Dense(U)` applied to a rank-3 tensor (acts on the last axis). -/
def dense3 (B T F U : ℕ) (W : Fin F → Fin U → ℝ) (bias : Fin U → ℝ)
    (x : Tensor3 ℝ B T F) : Tensor3 ℝ B T U :=
  fun b t => denseVec F U W bias (x b t)

/-- Pointwise tanh on a rank-3 tensor (Keras `Activation('tanh')`). -/
def tanh3 (B T C : ℕ) (x : Tensor3 ℝ B T C) : Tensor3 ℝ B T C :=
  fun b t c => Real.tanh (x b t c)

/-- Pointwise tanh on a rank-4 tensor. -/
def tanh4 (B T N C : ℕ) (x : Tensor4 ℝ B T N C) : Tensor4 ℝ B T N C :=
  fun b t n c => Real.tanh (x b t n c)

/-- Keras `TimeDistributed(Conv1D(Cout, K, padding='same'))`: a stride-1
convolution along the note axis per (batch, time), with zero padding of
(K - 1) / 2 on the left (TensorFlow places the smaller half of the padding
first). -/
def conv1d_same (B T N Cin Cout K : ℕ)
    (W : Fin K → Fin Cin → Fin Cout → ℝ) (bias : Fin Cout → ℝ)
    (x : Tensor4 ℝ B T N Cin) : Tensor4 ℝ B T N Cout :=
  fun b t n u =>
    bias u + ∑ k : Fin K, ∑ c : Fin Cin,
      (if h : 0 ≤ (n.val : ℤ) + k.val - ((K - 1) / 2 : ℕ)
            ∧ (n.val : ℤ) + k.val - ((K - 1) / 2 : ℕ) < (N : ℤ) then
        x b t ⟨((n.val : ℤ) + k.val - ((K - 1) / 2 : ℕ)).toNat, by omega⟩ c
      else 0) * W k c u

/-- Keras `TimeDistributed(RepeatVector(N))`: broadcast a (B, T, C) tensor
across the note axis. -/
def repeat_vector (B T N C : ℕ) (x : Tensor3 ℝ B T C) : Tensor4 ℝ B T N C :=
  fun b t _ c => x b t c

/-- Keras `Permute((2, 1, 3))`: swap the two middle axes of a rank-4
tensor. -/
def permute213 (B D1 D2 C : ℕ) (x : Tensor4 ℝ B D1 D2 C) : Tensor4 ℝ B D2 D1 C :=
  fun b d2 d1 c => x b d1 d2 c

/-- Pointwise sum (Keras `Add()`). -/
def add4 (B T N C : ℕ) (x y : Tensor4 ℝ B T N C) : Tensor4 ℝ B T N C :=
  fun b t n c => x b t n c + y b t n c

/-- Parameters of one Keras 2 LSTM layer with input width F and U units:
kernel, recurrent kernel and bias for the input, forget, cell and output
gates. -/
structure LSTMWeights (F U : ℕ) where
  Wi : Fin F → Fin U → ℝ
  Wf : Fin F → Fin U → ℝ
  Wc : Fin F → Fin U → ℝ
  Wo : Fin F → Fin U → ℝ
  Ui : Fin U → Fin U → ℝ
  Uf : Fin U → Fin U → ℝ
  Uc : Fin U → Fin U → ℝ
  Uo : Fin U → Fin U → ℝ
  bi : Fin U → ℝ
  bf : Fin U → ℝ
  bc : Fin U → ℝ
  bo : Fin U → ℝ

/-- Preactivation of one LSTM gate. -/
def lstm_gate (F U : ℕ) (W : Fin F → Fin U → ℝ) (Urec : Fin U → Fin U → ℝ)
    (bias : Fin U → ℝ) (xv : Fin F → ℝ) (h : Fin U → ℝ) (u : Fin U) : ℝ :=
  (∑ j, xv j * W j u) + (∑ j, h j * Urec j u) + bias u

/-- One step of the Keras 2 LSTM cell (activation tanh, recurrent
activation hard_sigmoid), mapping the pair (h, c) to the next (h, c). -/
def lstm_cell (F U : ℕ) (w : LSTMWeights F U) (xv : Fin F → ℝ)
    (hc : (Fin U → ℝ) × (Fin U → ℝ)) : (Fin U → ℝ) × (Fin U → ℝ) :=
  let i := fun u => hard_sigmoid (lstm_gate F U w.Wi w.Ui w.bi xv hc.1 u)
  let f := fun u => hard_sigmoid (lstm_gate F U w.Wf w.Uf w.bf xv hc.1 u)
  let g := fun u => Real.tanh (lstm_gate F U w.Wc w.Uc w.bc xv hc.1 u)
  let o := fun u => hard_sigmoid (lstm_gate F U w.Wo w.Uo w.bo xv hc.1 u)
  let cnew := fun u => f u * hc.2 u + i u * g u
  (fun u => o u * Real.tanh (cnew u), cnew)

/-- Iterated LSTM state after s steps, starting from zero state. -/
def lstm_scan (L F U : ℕ) (w : LSTMWeights F U) (xs : Fin L → Fin F → ℝ) :
    ℕ → (Fin U → ℝ) × (Fin U → ℝ)
  | 0 => (fun _ => 0, fun _ => 0)
  | s + 1 =>
    if h : s < L then lstm_cell F U w (xs ⟨s, h⟩) (lstm_scan L F U w xs s)
    else lstm_scan L F U w xs s

/-- Keras `LSTM(U, return_sequences=True)` on one sequence (stateless
across calls; initial state zero): output at step s is the hidden state
after s + 1 cell applications. -/
def lstm_seq (L F U : ℕ) (w : LSTMWeights F U) (xs : Fin L → Fin F → ℝ) :
    Fin L → Fin U → ℝ :=
  fun s u => (lstm_scan L F U w xs (s.val + 1)).1 u

/-- Keras `TimeDistributed(LSTM(U, return_sequences=True))` on a rank-4
tensor: the recurrence runs along axis 2, independently for each (batch,
axis-1) slice. -/
def td_lstm (B A L F U : ℕ) (w : LSTMWeights F U) (x : Tensor4 ℝ B A L F) :
    Tensor4 ℝ B A L U :=
  fun b a => lstm_seq L F U w (x b a)

/-- Lines 59 and 62-63: the style embedding fed to both axis stacks —
input dropout, then `Dense(STYLE_UNITS)` with NO activation, then
dropout. -/
def style_embedding (B T S SU : ℕ) (idr dr : ℝ)
    (m_in : Mask3 B T S) (m_emb : Mask3 B T SU)
    (W : Fin S → Fin SU → ℝ) (bias : Fin SU → ℝ)
    (x : Tensor3 ℝ B T S) : Tensor3 ℝ B T SU :=
  dropout3 ℝ B T SU dr m_emb
    (dense3 B T S SU W bias (dropout3 ℝ B T S idr m_in x))

/-- Lines 57 and 65-67: the beat embedding — input dropout, then
`Dense(BEAT_UNITS)`, then `Activation('tanh')`, then dropout. -/
def beat_embedding (B T BU : ℕ) (idr dr : ℝ)
    (m_in : Mask3 B T 2) (m_emb : Mask3 B T BU)
    (W : Fin 2 → Fin BU → ℝ) (bias : Fin BU → ℝ)
    (x : Tensor3 ℝ B T 2) : Tensor3 ℝ B T BU :=
  dropout3 ℝ B T BU dr m_emb
    (tanh3 B T BU (dense3 B T 2 BU W bias (dropout3 ℝ B T 2 idr m_in x)))

/-- Stated from the SPEC's description (claim C4) for comparison: a style
embedding that applies the embedding-stage nonlinearity (tanh, as the code
does for beat) after the linear projection. -/
def style_embedding_claimed (B T S SU : ℕ) (idr dr : ℝ)
    (m_in : Mask3 B T S) (m_emb : Mask3 B T SU)
    (W : Fin S → Fin SU → ℝ) (bias : Fin SU → ℝ)
    (x : Tensor3 ℝ B T S) : Tensor3 ℝ B T SU :=
  dropout3 ℝ B T SU dr m_emb
    (tanh3 B T SU (dense3 B T S SU W bias (dropout3 ℝ B T S idr m_in x)))

/-- The learned parameters of the whole graph.  Per-layer parameters are
indexed by the layer number, with widths following `Config.timeWidth` /
`Config.noteWidth` (the code sizes each style projection by
`int(x.get_shape()[3])`, the current feature width). -/
structure Weights (cfg : Config) where
  style_W : Fin cfg.NUM_STYLES → Fin cfg.STYLE_UNITS → ℝ
  style_b : Fin cfg.STYLE_UNITS → ℝ
  beat_W : Fin 2 → Fin cfg.BEAT_UNITS → ℝ
  beat_b : Fin cfg.BEAT_UNITS → ℝ
  conv_W : Fin (2 * cfg.OCTAVE) → Fin 2 → Fin cfg.OCTAVE_UNITS → ℝ
  conv_b : Fin cfg.OCTAVE_UNITS → ℝ
  time_style_W : (l : ℕ) → Fin cfg.STYLE_UNITS → Fin (cfg.timeWidth l) → ℝ
  time_style_b : (l : ℕ) → Fin (cfg.timeWidth l) → ℝ
  time_lstm : (l : ℕ) → LSTMWeights (cfg.timeWidth l) cfg.TIME_AXIS_UNITS
  note_style_W : (l : ℕ) → Fin cfg.STYLE_UNITS → Fin (cfg.noteWidth l) → ℝ
  note_style_b : (l : ℕ) → Fin (cfg.noteWidth l) → ℝ
  note_lstm : (l : ℕ) → LSTMWeights (cfg.noteWidth l) cfg.NOTE_AXIS_UNITS
  out_W : Fin (cfg.noteWidth cfg.NOTE_AXIS_LAYERS) → Fin 2 → ℝ
  out_b : Fin 2 → ℝ

/-- The Bernoulli keep-masks of every dropout site in the graph. -/
structure Masks (cfg : Config) where
  notes_in : Mask4 cfg.B cfg.T cfg.N 2
  beat_in : Mask3 cfg.B cfg.T 2
  chosen_in : Mask4 cfg.B cfg.T cfg.N 2
  style_in : Mask3 cfg.B cfg.T cfg.NUM_STYLES
  style_emb : Mask3 cfg.B cfg.T cfg.STYLE_UNITS
  beat_emb : Mask3 cfg.B cfg.T cfg.BEAT_UNITS
  conv : Mask4 cfg.B cfg.T cfg.N cfg.OCTAVE_UNITS
  time_style : (l : ℕ) → Mask3 cfg.B cfg.T (cfg.timeWidth l)
  time_out : ℕ → Mask4 cfg.B cfg.N cfg.T cfg.TIME_AXIS_UNITS
  note_style : (l : ℕ) → Mask3 cfg.B cfg.T (cfg.noteWidth l)
  note_out : ℕ → Mask4 cfg.B cfg.T cfg.N cfg.NOTE_AXIS_UNITS

/-- One iteration of the time-axis loop (lines 90-100): project the style
embedding to the current width, tanh, dropout, broadcast across notes,
permute to (B, N, T, W), add, LSTM along time, dropout. -/
def time_axis_layer (cfg : Config) (w : Weights cfg) (dr : ℝ) (m : Masks cfg)
    (style : Tensor3 ℝ cfg.B cfg.T cfg.STYLE_UNITS) (l : ℕ)
    (x : Tensor4 ℝ cfg.B cfg.N cfg.T (cfg.timeWidth l)) :
    Tensor4 ℝ cfg.B cfg.N cfg.T cfg.TIME_AXIS_UNITS :=
  let sp := dropout3 ℝ cfg.B cfg.T (cfg.timeWidth l) dr (m.time_style l)
    (tanh3 cfg.B cfg.T (cfg.timeWidth l)
      (dense3 cfg.B cfg.T cfg.STYLE_UNITS (cfg.timeWidth l)
        (w.time_style_W l) (w.time_style_b l) style))
  let spB := permute213 cfg.B cfg.T cfg.N (cfg.timeWidth l)
    (repeat_vector cfg.B cfg.T cfg.N (cfg.timeWidth l) sp)
  dropout4 ℝ cfg.B cfg.N cfg.T cfg.TIME_AXIS_UNITS dr (m.time_out l)
    (td_lstm cfg.B cfg.N cfg.T (cfg.timeWidth l) cfg.TIME_AXIS_UNITS
      (w.time_lstm l)
      (add4 cfg.B cfg.N cfg.T (cfg.timeWidth l) x spB))

/-- The time-axis stack: l iterations of `time_axis_layer`. -/
def time_axis_stack (cfg : Config) (w : Weights cfg) (dr : ℝ) (m : Masks cfg)
    (style : Tensor3 ℝ cfg.B cfg.T cfg.STYLE_UNITS) :
    (l : ℕ) → Tensor4 ℝ cfg.B cfg.N cfg.T (cfg.timeWidth 0) →
      Tensor4 ℝ cfg.B cfg.N cfg.T (cfg.timeWidth l)
  | 0, x0 => x0
  | l + 1, x0 => time_axis_layer cfg w dr m style l (time_axis_stack cfg w dr m style l x0)

/-- One iteration of the note-axis loop (lines 114-123): same style
injection pattern (broadcast across notes, no permute), LSTM along the
note axis, dropout. -/
def note_axis_layer (cfg : Config) (w : Weights cfg) (dr : ℝ) (m : Masks cfg)
    (style : Tensor3 ℝ cfg.B cfg.T cfg.STYLE_UNITS) (l : ℕ)
    (x : Tensor4 ℝ cfg.B cfg.T cfg.N (cfg.noteWidth l)) :
    Tensor4 ℝ cfg.B cfg.T cfg.N cfg.NOTE_AXIS_UNITS :=
  let sp := dropout3 ℝ cfg.B cfg.T (cfg.noteWidth l) dr (m.note_style l)
    (tanh3 cfg.B cfg.T (cfg.noteWidth l)
      (dense3 cfg.B cfg.T cfg.STYLE_UNITS (cfg.noteWidth l)
        (w.note_style_W l) (w.note_style_b l) style))
  dropout4 ℝ cfg.B cfg.T cfg.N cfg.NOTE_AXIS_UNITS dr (m.note_out l)
    (td_lstm cfg.B cfg.T cfg.N (cfg.noteWidth l) cfg.NOTE_AXIS_UNITS
      (w.note_lstm l)
      (add4 cfg.B cfg.T cfg.N (cfg.noteWidth l) x
        (repeat_vector cfg.B cfg.T cfg.N (cfg.noteWidth l) sp)))

/-- The note-axis stack: l iterations of `note_axis_layer`. -/
def note_axis_stack (cfg : Config) (w : Weights cfg) (dr : ℝ) (m : Masks cfg)
    (style : Tensor3 ℝ cfg.B cfg.T cfg.STYLE_UNITS) :
    (l : ℕ) → Tensor4 ℝ cfg.B cfg.T cfg.N (cfg.noteWidth 0) →
      Tensor4 ℝ cfg.B cfg.T cfg.N (cfg.noteWidth l)
  | 0, x0 => x0
  | l + 1, x0 => note_axis_layer cfg w dr m style l (note_axis_stack cfg w dr m style l x0)

/-- The full forward graph of `build_model` (lines 48-134), from the four
input tensors to `notes_out`, with dropout rates `idr = input_dropout` and
`dr = dropout` and all keep-masks in `m`.  The argument order (notes,
chosen, beat, style) is the positional input order of line 134. -/
def model_forward (cfg : Config) (w : Weights cfg) (idr dr : ℝ) (m : Masks cfg)
    (notes_input : Tensor4 ℝ cfg.B cfg.T cfg.N 2)
    (chosen_input : Tensor4 ℝ cfg.B cfg.T cfg.N 2)
    (beat_input : Tensor3 ℝ cfg.B cfg.T 2)
    (style_input : Tensor3 ℝ cfg.B cfg.T cfg.NUM_STYLES) :
    Tensor4 ℝ cfg.B cfg.T cfg.N 2 :=
  let notes := dropout4 ℝ cfg.B cfg.T cfg.N 2 idr m.notes_in notes_input
  let chosen := dropout4 ℝ cfg.B cfg.T cfg.N 2 idr m.chosen_in chosen_input
  let style := style_embedding cfg.B cfg.T cfg.NUM_STYLES cfg.STYLE_UNITS idr dr
    m.style_in m.style_emb w.style_W w.style_b style_input
  let beat := beat_embedding cfg.B cfg.T cfg.BEAT_UNITS idr dr
    m.beat_in m.beat_emb w.beat_W w.beat_b beat_input
  let note_octave := dropout4 ℝ cfg.B cfg.T cfg.N cfg.OCTAVE_UNITS dr m.conv
    (tanh4 cfg.B cfg.T cfg.N cfg.OCTAVE_UNITS
      (conv1d_same cfg.B cfg.T cfg.N 2 cfg.OCTAVE_UNITS (2 * cfg.OCTAVE)
        w.conv_W w.conv_b notes))
  let note_features :=
    concat4 ℝ cfg.B cfg.T cfg.N (1 + cfg.OCTAVE + 1 + cfg.OCTAVE_UNITS) cfg.BEAT_UNITS
      (concat4 ℝ cfg.B cfg.T cfg.N (1 + cfg.OCTAVE + 1) cfg.OCTAVE_UNITS
        (concat4 ℝ cfg.B cfg.T cfg.N (1 + cfg.OCTAVE) 1
          (concat4 ℝ cfg.B cfg.T cfg.N 1 cfg.OCTAVE
            (pitch_pos_in_f ℝ cfg.B cfg.T cfg.N)
            (pitch_class_in_f ℝ cfg.B cfg.T cfg.N cfg.OCTAVE))
          (pitch_bins_f ℝ cfg.B cfg.T cfg.OCTAVE cfg.NUM_OCTAVES notes))
        note_octave)
      (repeat_vector cfg.B cfg.T cfg.N cfg.BEAT_UNITS beat)
  let xT := time_axis_stack cfg w dr m style cfg.TIME_AXIS_LAYERS
    (permute213 cfg.B cfg.T cfg.N (cfg.timeWidth 0) note_features)
  let xC := concat4 ℝ cfg.B cfg.T cfg.N (cfg.timeWidth cfg.TIME_AXIS_LAYERS) 2
    (permute213 cfg.B cfg.N cfg.T (cfg.timeWidth cfg.TIME_AXIS_LAYERS) xT)
    (shift_chosen ℝ cfg.B cfg.T cfg.N 2 chosen)
  let xN := note_axis_stack cfg w dr m style cfg.NOTE_AXIS_LAYERS xC
  fun b t n c =>
    sigmoid (denseVec (cfg.noteWidth cfg.NOTE_AXIS_LAYERS) 2 w.out_W w.out_b (xN b t n) c)

end Network

/-! ### Concrete inputs used by witnesses and counterexamples -/

/-- Concrete input refuting claim C1: batch 1, 16 time steps, OCTAVE = 12,
NUM_OCTAVES = 4 (N = 48), with a single active note — note 13 (pitch class
1) is "played" at every time step and everything else is silent. -/
def c1_failing_input : Tensor4 ℚ 1 16 (4 * 12) 2 :=
  fun _ _ n c => if n.val = 13 ∧ c.val = 0 then 1 else 0

/-- Concrete chosen tensor for the C2 witness. -/
def c2_chosen : Tensor4 ℚ 1 1 2 2 := fun _ _ n c => (n.val : ℚ) + (c.val : ℚ) + 1

/-! ### Claim theorems about the forward graph -/

/-! ### Claim theorems for the pure feature constructors -/

/-- C6: the pitch-position feature at note index i equals i / NUM_NOTES for
every i, replicated identically across every batch element and time step
(the value is independent of b and t); the output shape (B, T, N, 1) is the
type of `pitch_pos_in_f`. -/
theorem C6_pitch_pos_value (R : Type) [Field R] (B T N : ℕ)
    (b : Fin B) (t : Fin T) (n : Fin N) (k : Fin 1) :
    pitch_pos_in_f R B T N b t n k = (n.val : R) / (N : R) := by
  have h : ((b.val * T + t.val) * N + n.val) % N = n.val := by
    rw [add_comm, Nat.add_mul_mod_self_right, Nat.mod_eq_of_lt n.isLt]
  simp [pitch_pos_in_f, h]

/-- C5: the pitch-class feature at note index i is the one-hot vector of
length OCTAVE at position i mod OCTAVE, identically for every batch element
and time step, and for every i with i + OCTAVE < NUM_NOTES the one-hot at
index i equals the one-hot at index i + OCTAVE (octave invariance). -/
theorem C5_pitch_class_one_hot (R : Type) [Field R] (B T N OCTAVE : ℕ) :
    (∀ (b : Fin B) (t : Fin T) (n : Fin N) (k : Fin OCTAVE),
      pitch_class_in_f R B T N OCTAVE b t n k = one_hot R (n.val % OCTAVE) OCTAVE k)
    ∧ (∀ (b : Fin B) (t : Fin T) (n : Fin N) (k : Fin OCTAVE)
        (h : n.val + OCTAVE < N),
      pitch_class_in_f R B T N OCTAVE b t ⟨n.val + OCTAVE, h⟩ k
        = pitch_class_in_f R B T N OCTAVE b t n k) := by
  constructor
  · intro b t n k
    rfl
  · intro b t n k h
    simp [pitch_class_in_f, pitch_class_matrix, Nat.add_mod_right]

/-- Witness for C5 at the configuration of the spec (N = 48, OCTAVE = 12):
note 17 = 5 + 12 has the same pitch-class one-hot as note 5. -/
theorem C5_pitch_class_one_hot_witness :
    (5 + 12 < 48)
    ∧ pitch_class_in_f ℚ 1 1 48 12 0 0 ⟨5 + 12, by norm_num⟩ ⟨3, by norm_num⟩
        = pitch_class_in_f ℚ 1 1 48 12 0 0 ⟨5, by norm_num⟩ ⟨3, by norm_num⟩ :=
  ⟨by norm_num,
    (C5_pitch_class_one_hot ℚ 1 1 48 12).2 0 0 ⟨5, by norm_num⟩ ⟨3, by norm_num⟩
      (by norm_num)⟩

/-- C1 (code bug): at the failing input, the pitch-bins feature produced by
the code at (b, t, n) = (0, 0, 13) is 0, while the value claimed by the spec
(the pitch-class-1 sum, which the function is plainly intended to produce)
is 1.  The missing transpose before `tf.reshape` scrambles the (N, B, T)
buffer into (B, T, N, 1) along the wrong axes. -/
theorem C1_pitch_bins_code_bug :
    pitch_bins_f ℚ 1 16 12 4 c1_failing_input 0 0 ⟨13, by norm_num⟩ 0 = 0
    ∧ pitch_bins_claimed ℚ 1 16 12 4 c1_failing_input 0 0 ⟨13, by norm_num⟩ 0 = 1 := by
  constructor
  · simp [pitch_bins_f, reshape_NBT_to_BTN1, pitch_bins_tiled, pitch_bins_stacked,
      c1_failing_input, Fin.sum_univ_succ]
    decide
  · simp [pitch_bins_claimed, c1_failing_input, Fin.sum_univ_succ]

/-- C2: with input dropout rate 0, the shifted chosen tensor concatenated
onto a feature tensor (of any width W) is zero at pitch index 0 at every
batch, time step and channel, and at every pitch index i > 0 it equals the
original chosen value at pitch index i - 1 — for every keep-mask, since
dropout at rate 0 is the identity. -/
theorem C2_shift_chosen_concat (R : Type) [Field R] [DecidableEq R]
    (B T N W : ℕ) (features : Tensor4 R B T N W) (chosen_in : Tensor4 R B T N 2)
    (mask : Fin B → Fin T → Fin N → Fin 2 → Bool) :
    (∀ (b : Fin B) (t : Fin T) (n0 : Fin N) (c : Fin 2), n0.val = 0 →
      concat4 R B T N W 2 features
          (shift_chosen R B T N 2 (dropout4 R B T N 2 0 mask chosen_in))
          b t n0 ⟨W + c.val, by have hc := c.isLt; omega⟩ = 0)
    ∧ (∀ (b : Fin B) (t : Fin T) (i : Fin N) (c : Fin 2), 0 < i.val →
      concat4 R B T N W 2 features
          (shift_chosen R B T N 2 (dropout4 R B T N 2 0 mask chosen_in))
          b t i ⟨W + c.val, by have hc := c.isLt; omega⟩
        = chosen_in b t ⟨i.val - 1, by have hi := i.isLt; omega⟩ c) := by
  constructor
  · intro b t n0 c h0
    simp [concat4, shift_chosen, dropout4, h0]
  · intro b t i c hi
    have hne : ¬ i.val = 0 := by omega
    simp [concat4, shift_chosen, dropout4, hne]

/-- Witness for C2 at a concrete configuration (B = T = 1, N = 2, W = 1),
with an adversarial all-drop mask: at rate 0 the mask is ignored and pitch
index 1 of the shifted-and-concatenated channel reads the original chosen
value at pitch index 0. -/
theorem C2_shift_chosen_concat_witness :
    0 < (1 : ℕ)
    ∧ concat4 ℚ 1 1 2 1 2 (fun _ _ _ _ => 5)
        (shift_chosen ℚ 1 1 2 2
          (dropout4 ℚ 1 1 2 2 0 (fun _ _ _ _ => false) c2_chosen))
        0 0 ⟨1, by norm_num⟩ ⟨1 + 1, by norm_num⟩
      = c2_chosen 0 0 ⟨0, by norm_num⟩ ⟨1, by norm_num⟩ :=
  ⟨by norm_num,
    (C2_shift_chosen_concat ℚ 1 1 2 1 (fun _ _ _ _ => 5)
        c2_chosen (fun _ _ _ _ => false)).2
      0 0 ⟨1, by norm_num⟩ ⟨1, by norm_num⟩ (by norm_num)⟩

/-- C7: the compiled training objective attaches exactly one loss, the
primary loss; the primary loss is element-wise binary cross-entropy
averaged over the positions of the last axis; the style loss is defined as
0.5 times categorical cross-entropy but is not attached to any output in
the default configuration. -/
theorem C7_compiled_single_primary_loss :
    compiled_losses = [LossTag.primary]
    ∧ compiled_losses.length = 1
    ∧ LossTag.style ∉ compiled_losses
    ∧ (∀ (C : ℕ) (ytrue ypred : Fin C → ℝ),
        primary_loss C ytrue ypred
          = (∑ c, -(ytrue c * Real.log (ypred c)
              + (1 - ytrue c) * Real.log (1 - ypred c))) / (C : ℝ))
    ∧ (∀ (C : ℕ) (ytrue ypred : Fin C → ℝ),
        style_loss C ytrue ypred = (1 / 2) * categorical_crossentropy C ytrue ypred) := by
  refine ⟨rfl, rfl, by decide, fun C ytrue ypred => rfl, fun C ytrue ypred => rfl⟩

/-- C10: the model consumes its inputs positionally in the order
(notes, chosen, beat, style) — the auto-regressive chosen tensor is the
second positional input — and this differs from the data-model table order
(notes, beat, style, chosen). -/
theorem C10_model_input_order :
    model_input_order
      = [ModelInput.notes, ModelInput.chosen, ModelInput.beat, ModelInput.style]
    ∧ model_input_order.get ⟨1, by norm_num [model_input_order]⟩ = ModelInput.chosen
    ∧ model_input_order ≠ data_model_table_order := by
  refine ⟨rfl, rfl, by decide⟩

/-- C9: with NUM_NOTES = 49 not divisible by OCTAVE = 12, no explicit
validation rejects the configuration — the pitch-class construction still
produces a well-formed total feature tensor (the one-hot of n mod OCTAVE at
every note) rather than failing — while the pitch-bins construction fails
with the tensor engine's shape mismatch (the strided slices are ragged),
and that failure propagates to the caller unmodified through the feature
stage. -/
theorem C9_non_divisible_octave (B T W : ℕ) (x : Tensor4 ℚ B T 49 2)
    (assemble : Tensor4 ℚ B T 49 1 → Tensor4 ℚ B T 49 W) :
    (∀ (b : Fin B) (t : Fin T) (n : Fin 49) (k : Fin 12),
      pitch_class_in_f ℚ B T 49 12 b t n k = one_hot ℚ (n.val % 12) 12 k)
    ∧ pitch_bins_checked ℚ B T 49 12 4 x = Except.error "tensor engine shape mismatch"
    ∧ note_features_checked ℚ B T 49 12 4 W x assemble
        = Except.error "tensor engine shape mismatch" := by
  have hbins : pitch_bins_checked ℚ B T 49 12 4 x
      = Except.error "tensor engine shape mismatch" := by
    rw [pitch_bins_checked, if_neg]
    intro hcl
    have h1 := hcl.1 1 (by norm_num)
    simp [slice_len] at h1
  refine ⟨fun b t n k => rfl, hbins, ?_⟩
  rw [note_features_checked, hbins]
  rfl

lemma sigmoid_nonneg (z : ℝ) : 0 ≤ sigmoid z :=
  div_nonneg zero_le_one (by positivity)

lemma sigmoid_le_one (z : ℝ) : sigmoid z ≤ 1 := by
  rw [sigmoid, div_le_one (by positivity)]
  have h := Real.exp_pos (-z)
  linarith

lemma real_tanh_lt_one (x : ℝ) : Real.tanh x < 1 := by
  rw [Real.tanh_eq_sinh_div_cosh, div_lt_one (Real.cosh_pos x)]
  have h1 := Real.cosh_sub_sinh x
  have h2 := Real.exp_pos (-x)
  linarith

lemma dropout4_zero (B T N C : ℕ) (mask : Mask4 B T N C) (x : Tensor4 ℝ B T N C) :
    dropout4 ℝ B T N C 0 mask x = x := by
  funext b t n c
  simp [dropout4]

lemma dropout3_zero (B T C : ℕ) (mask : Mask3 B T C) (x : Tensor3 ℝ B T C) :
    dropout3 ℝ B T C 0 mask x = x := by
  funext b t c
  simp [dropout3]

/-- C3: for every configuration, weights, dropout rates, masks and input
tensors, every entry of `notes_out` lies in [0, 1] — the final projection
is a 2-unit dense layer under an (element-wise independent) sigmoid.  The
output shape (B, T, N, 2) is the type of `model_forward`. -/
theorem C3_notes_out_in_unit_interval (cfg : Config) (w : Weights cfg)
    (idr dr : ℝ) (m : Masks cfg)
    (notes_input chosen_input : Tensor4 ℝ cfg.B cfg.T cfg.N 2)
    (beat_input : Tensor3 ℝ cfg.B cfg.T 2)
    (style_input : Tensor3 ℝ cfg.B cfg.T cfg.NUM_STYLES)
    (b : Fin cfg.B) (t : Fin cfg.T) (n : Fin cfg.N) (c : Fin 2) :
    0 ≤ model_forward cfg w idr dr m notes_input chosen_input beat_input style_input b t n c
    ∧ model_forward cfg w idr dr m notes_input chosen_input beat_input style_input b t n c ≤ 1 :=
  ⟨sigmoid_nonneg _, sigmoid_le_one _⟩

/-- C4 counterexample: at a concrete 1-dimensional configuration (identity
weight, zero bias, dropout rates 0, all-keep masks, input value 2), the
style embedding built by the code evaluates to 2 — the bare linear
projection — whereas the spec's claimed embedding (linear projection
followed by the embedding-stage nonlinearity, tanh as used for beat)
evaluates to tanh 2 < 1; the two disagree, so no nonlinearity is applied
to the style projection. -/
theorem C4_style_embedding_counterexample :
    style_embedding 1 1 1 1 0 0 (fun _ _ _ => true) (fun _ _ _ => true)
        (fun _ _ => 1) (fun _ => 0) (fun _ _ _ => 2) 0 0 0 = 2
    ∧ style_embedding_claimed 1 1 1 1 0 0 (fun _ _ _ => true) (fun _ _ _ => true)
        (fun _ _ => 1) (fun _ => 0) (fun _ _ _ => 2) 0 0 0 = Real.tanh 2
    ∧ style_embedding 1 1 1 1 0 0 (fun _ _ _ => true) (fun _ _ _ => true)
        (fun _ _ => 1) (fun _ => 0) (fun _ _ _ => 2) 0 0 0
      ≠ style_embedding_claimed 1 1 1 1 0 0 (fun _ _ _ => true) (fun _ _ _ => true)
        (fun _ _ => 1) (fun _ => 0) (fun _ _ _ => 2) 0 0 0 := by
  have h1 : style_embedding 1 1 1 1 0 0 (fun _ _ _ => true) (fun _ _ _ => true)
      (fun _ _ => 1) (fun _ => 0) (fun _ _ _ => 2) 0 0 0 = 2 := by
    simp [style_embedding, dense3, denseVec, dropout3]
  have h2 : style_embedding_claimed 1 1 1 1 0 0 (fun _ _ _ => true) (fun _ _ _ => true)
      (fun _ _ => 1) (fun _ => 0) (fun _ _ _ => 2) 0 0 0 = Real.tanh 2 := by
    simp [style_embedding_claimed, tanh3, dense3, denseVec, dropout3]
  refine ⟨h1, h2, ?_⟩
  rw [h1, h2]
  have h3 := real_tanh_lt_one (2 : ℝ)
  intro he
  rw [← he] at h3
  norm_num at h3

/-- C4 amended: in the embedding stage the beat input is projected by a
learned linear layer followed by a tanh nonlinearity, while the style
input is projected by a learned linear layer with NO nonlinearity (dropout
only) — with dropout disabled the style embedding is exactly the affine
map of its Dense layer, and with zero bias it is additive in the input. -/
theorem C4_embedding_stage_amended (B T S SU BU : ℕ)
    (m1 : Mask3 B T S) (m2 : Mask3 B T SU) (mb1 : Mask3 B T 2) (mb2 : Mask3 B T BU)
    (W : Fin S → Fin SU → ℝ) (bias : Fin SU → ℝ)
    (Wb : Fin 2 → Fin BU → ℝ) (biasb : Fin BU → ℝ) :
    (∀ x, style_embedding B T S SU 0 0 m1 m2 W bias x = dense3 B T S SU W bias x)
    ∧ (∀ x, beat_embedding B T BU 0 0 mb1 mb2 Wb biasb x
        = tanh3 B T BU (dense3 B T 2 BU Wb biasb x))
    ∧ (∀ (x y : Tensor3 ℝ B T S) (b : Fin B) (t : Fin T) (u : Fin SU),
        style_embedding B T S SU 0 0 m1 m2 W (fun _ => 0)
            (fun b2 t2 s => x b2 t2 s + y b2 t2 s) b t u
          = style_embedding B T S SU 0 0 m1 m2 W (fun _ => 0) x b t u
            + style_embedding B T S SU 0 0 m1 m2 W (fun _ => 0) y b t u) := by
  refine ⟨fun x => ?_, fun x => ?_, fun x y b t u => ?_⟩
  · funext b t u
    simp [style_embedding, dropout3_zero]
  · funext b t u
    simp [beat_embedding, dropout3_zero]
  · simp [style_embedding, dropout3_zero, dense3, denseVec, add_mul, Finset.sum_add_distrib]

/-! ### Determinism of the rate-0 forward pass (claim C8) -/

lemma time_axis_layer_mask_irrel (cfg : Config) (w : Weights cfg) (m m' : Masks cfg)
    (style : Tensor3 ℝ cfg.B cfg.T cfg.STYLE_UNITS) (l : ℕ)
    (x : Tensor4 ℝ cfg.B cfg.N cfg.T (cfg.timeWidth l)) :
    time_axis_layer cfg w 0 m style l x = time_axis_layer cfg w 0 m' style l x := by
  simp [time_axis_layer, dropout3_zero, dropout4_zero]

lemma time_axis_stack_mask_irrel (cfg : Config) (w : Weights cfg) (m m' : Masks cfg)
    (style : Tensor3 ℝ cfg.B cfg.T cfg.STYLE_UNITS) :
    ∀ (l : ℕ) (x0 : Tensor4 ℝ cfg.B cfg.N cfg.T (cfg.timeWidth 0)),
      time_axis_stack cfg w 0 m style l x0 = time_axis_stack cfg w 0 m' style l x0 := by
  intro l
  induction l with
  | zero => intro x0; rfl
  | succ l ih =>
    intro x0
    simp only [time_axis_stack]
    rw [ih x0]
    exact time_axis_layer_mask_irrel cfg w m m' style l _

lemma note_axis_layer_mask_irrel (cfg : Config) (w : Weights cfg) (m m' : Masks cfg)
    (style : Tensor3 ℝ cfg.B cfg.T cfg.STYLE_UNITS) (l : ℕ)
    (x : Tensor4 ℝ cfg.B cfg.T cfg.N (cfg.noteWidth l)) :
    note_axis_layer cfg w 0 m style l x = note_axis_layer cfg w 0 m' style l x := by
  simp [note_axis_layer, dropout3_zero, dropout4_zero]

lemma note_axis_stack_mask_irrel (cfg : Config) (w : Weights cfg) (m m' : Masks cfg)
    (style : Tensor3 ℝ cfg.B cfg.T cfg.STYLE_UNITS) :
    ∀ (l : ℕ) (x0 : Tensor4 ℝ cfg.B cfg.T cfg.N (cfg.noteWidth 0)),
      note_axis_stack cfg w 0 m style l x0 = note_axis_stack cfg w 0 m' style l x0 := by
  intro l
  induction l with
  | zero => intro x0; rfl
  | succ l ih =>
    intro x0
    simp only [note_axis_stack]
    rw [ih x0]
    exact note_axis_layer_mask_irrel cfg w m m' style l _

/-- C8: with both dropout rates set to 0 and fixed weights, the forward
pass is a deterministic function of its four inputs — the only stochastic
elements of the graph are the dropout masks, and two evaluations under
arbitrary (in particular, different) mask draws produce identical output
tensors. -/
theorem C8_forward_deterministic_at_rate_zero (cfg : Config) (w : Weights cfg)
    (m m' : Masks cfg)
    (notes_input chosen_input : Tensor4 ℝ cfg.B cfg.T cfg.N 2)
    (beat_input : Tensor3 ℝ cfg.B cfg.T 2)
    (style_input : Tensor3 ℝ cfg.B cfg.T cfg.NUM_STYLES) :
    model_forward cfg w 0 0 m notes_input chosen_input beat_input style_input
      = model_forward cfg w 0 0 m' notes_input chosen_input beat_input style_input := by
  simp only [model_forward, style_embedding, beat_embedding, dropout3_zero, dropout4_zero]
  rw [time_axis_stack_mask_irrel cfg w m m', note_axis_stack_mask_irrel cfg w m m']

end DeepJ
